import Mathlib

/-!
Shallow embedding of the `stun` package's attribute model and error
taxonomy (file `errors.go`), together with theorems settling the
specification's claims about it.

Bytes (`[]byte`) are modelled as `List Nat` with each entry below 256 where
it matters (only equality of byte sequences is used here, so no bound is
needed); `uint16` values are modelled as `Nat`.
-/

namespace stun

/-- Go: `type Error string`: constant error type of the stun package. -/
def Error := String

deriving instance DecidableEq for Error

/-- Go: `func (e Error) Error() string`: an `Error` renders as its own text. -/
def Error.text (e : Error) : String := e

/-- Go: `DecodeErrPlace` records a place where an error occurred. -/
structure DecodeErrPlace where
  Parent : String
  Children : String
deriving DecidableEq

/-- Go: `func (p DecodeErrPlace) String() string`: renders as `Parent + "/" + Children`. -/
def DecodeErrPlace.toText (p : DecodeErrPlace) : String :=
  p.Parent ++ "/" ++ p.Children

/-- Go: `DecodeErr` records an error and the place where it occurred. -/
structure DecodeErr where
  Place : DecodeErrPlace
  Message : String
deriving DecidableEq

/-- Go: `func (e DecodeErr) IsInvalidCookie() bool`:
`e.Place == DecodeErrPlace{"message", "cookie"}`. -/
def DecodeErr.IsInvalidCookie (e : DecodeErr) : Bool :=
  decide (e.Place = DecodeErrPlace.mk "message" "cookie")

/-- Go: `func (e DecodeErr) IsPlaceParent(p string) bool`: `e.Place.Parent == p`. -/
def DecodeErr.IsPlaceParent (e : DecodeErr) (p : String) : Bool :=
  decide (e.Place.Parent = p)

/-- Go: `func (e DecodeErr) IsPlaceChildren(c string) bool`: `e.Place.Children == c`. -/
def DecodeErr.IsPlaceChildren (e : DecodeErr) (c : String) : Bool :=
  decide (e.Place.Children = c)

/-- Go: `func (e DecodeErr) IsPlace(p DecodeErrPlace) bool`: `e.Place == p`. -/
def DecodeErr.IsPlace (e : DecodeErr) (p : DecodeErrPlace) : Bool :=
  decide (e.Place = p)

/-- Go: `func (e DecodeErr) Error() string`:
`"BadFormat for " + e.Place.String() + ": " + e.Message`. -/
def DecodeErr.toText (e : DecodeErr) : String :=
  "BadFormat for " ++ DecodeErrPlace.toText e.Place ++ ": " ++ e.Message

/-- Go: `func newDecodeErr(parent, children, message string) *DecodeErr`. -/
def newDecodeErr (parent children message : String) : DecodeErr :=
  DecodeErr.mk (DecodeErrPlace.mk parent children) message

/-- Go: `func newAttrDecodeErr(children, message string) *DecodeErr`:
fixes the parent to `"attribute"`. -/
def newAttrDecodeErr (children message : String) : DecodeErr :=
  newDecodeErr "attribute" children message

/-- Go: `AttrType` is an attribute type: a `uint16` code, modelled as `Nat`. -/
abbrev AttrType := Nat

/-- Go: `AttrMappedAddress AttrType = 0x0001`. -/
def AttrMappedAddress : AttrType := 0x0001
/-- Go: `AttrUsername AttrType = 0x0006`. -/
def AttrUsername : AttrType := 0x0006
/-- Go: `AttrMessageIntegrity AttrType = 0x0008`. -/
def AttrMessageIntegrity : AttrType := 0x0008
/-- Go: `AttrErrorCode AttrType = 0x0009`. -/
def AttrErrorCode : AttrType := 0x0009
/-- Go: `AttrUnknownAttributes AttrType = 0x000A`. -/
def AttrUnknownAttributes : AttrType := 0x000A
/-- Go: `AttrRealm AttrType = 0x0014`. -/
def AttrRealm : AttrType := 0x0014
/-- Go: `AttrNonce AttrType = 0x0015`. -/
def AttrNonce : AttrType := 0x0015
/-- Go: `AttrXORMappedAddress AttrType = 0x0020`. -/
def AttrXORMappedAddress : AttrType := 0x0020
/-- Go: `AttrSoftware AttrType = 0x8022`. -/
def AttrSoftware : AttrType := 0x8022
/-- Go: `AttrAlternateServer AttrType = 0x8023`. -/
def AttrAlternateServer : AttrType := 0x8023
/-- Go: `AttrFingerprint AttrType = 0x8028`. -/
def AttrFingerprint : AttrType := 0x8028
/-- Go: `AttrPriority AttrType = 0x0024`. -/
def AttrPriority : AttrType := 0x0024
/-- Go: `AttrUseCandidate AttrType = 0x0025`. -/
def AttrUseCandidate : AttrType := 0x0025
/-- Go: `AttrICEControlled AttrType = 0x8029`. -/
def AttrICEControlled : AttrType := 0x8029
/-- Go: `AttrICEControlling AttrType = 0x802A`. -/
def AttrICEControlling : AttrType := 0x802A
/-- Go: `AttrChannelNumber AttrType = 0x000C`. -/
def AttrChannelNumber : AttrType := 0x000C
/-- Go: `AttrLifetime AttrType = 0x000D`. -/
def AttrLifetime : AttrType := 0x000D
/-- Go: `AttrXORPeerAddress AttrType = 0x0012`. -/
def AttrXORPeerAddress : AttrType := 0x0012
/-- Go: `AttrData AttrType = 0x0013`. -/
def AttrData : AttrType := 0x0013
/-- Go: `AttrXORRelayedAddress AttrType = 0x0016`. -/
def AttrXORRelayedAddress : AttrType := 0x0016
/-- Go: `AttrEvenPort AttrType = 0x0018`. -/
def AttrEvenPort : AttrType := 0x0018
/-- Go: `AttrRequestedTransport AttrType = 0x0019`. -/
def AttrRequestedTransport : AttrType := 0x0019
/-- Go: `AttrDontFragment AttrType = 0x001A`. -/
def AttrDontFragment : AttrType := 0x001A
/-- Go: `AttrReservationToken AttrType = 0x0022`. -/
def AttrReservationToken : AttrType := 0x0022
/-- Go: `AttrOrigin AttrType = 0x802F`. -/
def AttrOrigin : AttrType := 0x802F

/-- Go: `func (t AttrType) Value() uint16`: the numeric code unchanged. -/
def AttrType.val (t : AttrType) : Nat := t

/-- Go: `var attrNames = map[AttrType]string{...}`: the registry of known
attribute type codes, modelled as an association list (all keys distinct). -/
def attrNames : List (AttrType × String) :=
  [(AttrMappedAddress, "MAPPED-ADDRESS"),
   (AttrUsername, "USERNAME"),
   (AttrErrorCode, "ERROR-CODE"),
   (AttrMessageIntegrity, "MESSAGE-INTEGRITY"),
   (AttrUnknownAttributes, "UNKNOWN-ATTRIBUTES"),
   (AttrRealm, "REALM"),
   (AttrNonce, "NONCE"),
   (AttrXORMappedAddress, "XOR-MAPPED-ADDRESS"),
   (AttrSoftware, "SOFTWARE"),
   (AttrAlternateServer, "ALTERNATE-SERVER"),
   (AttrFingerprint, "FINGERPRINT"),
   (AttrPriority, "PRIORITY"),
   (AttrUseCandidate, "USE-CANDIDATE"),
   (AttrICEControlled, "ICE-CONTROLLED"),
   (AttrICEControlling, "ICE-CONTROLLING"),
   (AttrChannelNumber, "CHANNEL-NUMBER"),
   (AttrLifetime, "LIFETIME"),
   (AttrXORPeerAddress, "XOR-PEER-ADDRESS"),
   (AttrData, "DATA"),
   (AttrXORRelayedAddress, "XOR-RELAYED-ADDRESS"),
   (AttrEvenPort, "EVEN-PORT"),
   (AttrRequestedTransport, "REQUESTED-TRANSPORT"),
   (AttrDontFragment, "DONT-FRAGMENT"),
   (AttrReservationToken, "RESERVATION-TOKEN"),
   (AttrOrigin, "ORIGIN")]

/-- Go: `func (t AttrType) String() string`: the registered name when the code is
in `attrNames`, otherwise `"0x" + strconv.FormatUint(uint64(t), 16)`
(lowercase hexadecimal, no zero-padding), which is what `Nat.toDigits 16`
produces. -/
def AttrType.toText (t : AttrType) : String :=
  match attrNames.lookup t with
  | some s => s
  | none => "0x" ++ String.mk (Nat.toDigits 16 t)

/-- Go: `RawAttribute`: a Type-Length-Value unit,
`{Type AttrType; Length uint16; Value []byte}`. -/
structure RawAttribute where
  type : AttrType
  length : Nat
  value : List Nat
deriving DecidableEq

/-- Go: `Attributes []RawAttribute`: the ordered attribute list. -/
abbrev Attributes := List RawAttribute

/-- Go: `func (a Attributes) Get(t AttrType) (RawAttribute, bool)`: scan in order,
return the first attribute whose `Type` is `t` with `true`; otherwise the
zero-valued `RawAttribute{}` with `false`. -/
def Attributes.get : Attributes → AttrType → RawAttribute × Bool
  | [], _ => (RawAttribute.mk 0 0 [], false)
  | candidate :: rest, t =>
    if candidate.type = t then (candidate, true) else Attributes.get rest t

/-- The byte loop of `RawAttribute.Equal`:
`for i, v := range a.Value { if b.Value[i] != v { return false } }; return true`,
called only after the lengths compared equal. -/
def bytesLoopEq : List Nat → List Nat → Bool
  | [], _ => true
  | _ :: _, [] => false
  | v :: vs, w :: ws => if w ≠ v then false else bytesLoopEq vs ws

/-- Go: `func (a RawAttribute) Equal(b RawAttribute) bool`: false on differing
`Type`, then differing `Length`, then differing `Value` lengths, then any
differing byte; true otherwise. -/
def RawAttribute.Equal (a b : RawAttribute) : Bool :=
  if a.type ≠ b.type then false
  else if a.length ≠ b.length then false
  else if b.value.length ≠ a.value.length then false
  else bytesLoopEq a.value b.value

/-- Modelled from the spec: the owning `Message` type is external to the
excerpt (§6). It exposes an `Attributes` field consumed by `Get`, and a raw
buffer field `Raw` consumed by `AddTo`. -/
structure Message where
  Raw : List Nat
  Attributes : Attributes
deriving DecidableEq

/-- Modelled from the spec: the external `Message.Add(type, bytes)` mutator
(§6) that `AddTo` calls into; it appends an attribute with the given type and
value bytes to the message's attribute list, with `Length` recomputed from
the value as §3 describes for encoding. -/
def Message.Add (m : Message) (t : AttrType) (v : List Nat) : Message :=
  Message.mk m.Raw (m.Attributes ++ [RawAttribute.mk t v.length v])

/-- Go: `func (a *RawAttribute) AddTo(m *Message) error`:
`m.Add(a.Type, m.Raw); return nil`. The mutation of `m` is made explicit:
the result is the updated message paired with the returned error. -/
def RawAttribute.AddTo (a : RawAttribute) (m : Message) : Message × Option Error :=
  (Message.Add m a.type m.Raw, none)

/-- Go: `const ErrAttributeNotFound Error = "Attribute not found"`: the sentinel
returned when an attribute with the requested type is absent. -/
def ErrAttributeNotFound : Error := "Attribute not found"

/-- Go: `func (m *Message) Get(t AttrType) ([]byte, error)`: delegate to
`m.Attributes.Get(t)`; on absence return `ErrAttributeNotFound`, on presence
return the found attribute's `Value` bytes. -/
def Message.Get (m : Message) (t : AttrType) : Except Error (List Nat) :=
  match Attributes.get m.Attributes t with
  | (_, false) => Except.error ErrAttributeNotFound
  | (v, true) => Except.ok v.value

end stun

namespace stun

/-- Shared helper: `RawAttribute.Equal` decides structural equality of all
three fields. -/
theorem rawAttribute_equal_iff (a b : RawAttribute) :
    RawAttribute.Equal a b = true ↔
      a.type = b.type ∧ a.length = b.length ∧ a.value = b.value := by
  have loop : ∀ vs ws : List Nat, List.length ws = List.length vs →
      (bytesLoopEq vs ws = true ↔ vs = ws) := by
    intro vs
    induction vs with
    | nil =>
      intro ws h
      cases ws with
      | nil => simp [bytesLoopEq]
      | cons w ws => simp at h
    | cons v vs ih =>
      intro ws h
      cases ws with
      | nil => simp at h
      | cons w ws =>
        simp only [List.length_cons, Nat.succ.injEq] at h
        by_cases hvw : w = v
        · subst hvw
          simpa [bytesLoopEq] using ih ws h
        · have hb : bytesLoopEq (v :: vs) (w :: ws) = false := by
            simp [bytesLoopEq, hvw]
          rw [hb]
          simp only [Bool.false_eq_true, false_iff]
          intro hc
          cases hc
          exact hvw rfl
  unfold RawAttribute.Equal
  by_cases ht : a.type = b.type
  · by_cases hl : a.length = b.length
    · by_cases hlen : List.length b.value = List.length a.value
      · rw [if_neg (not_not_intro ht), if_neg (not_not_intro hl),
          if_neg (not_not_intro hlen), loop a.value b.value hlen]
        simp [ht, hl]
      · have hv : a.value ≠ b.value := fun h => hlen (by rw [h])
        rw [if_neg (not_not_intro ht), if_neg (not_not_intro hl), if_pos hlen]
        simp [hv]
    · rw [if_neg (not_not_intro ht), if_pos hl]
      simp [hl]
  · rw [if_pos ht]
    simp [ht]

end stun

namespace stun

/-- Claim C6: for every `DecodeErr` `e`, `e.IsInvalidCookie()` returns `true` if and
only if `e.Place` equals `{Parent: "message", Children: "cookie"}`; for every
other place value it returns `false`. -/
theorem isInvalidCookie_iff_place (e : DecodeErr) :
    DecodeErr.IsInvalidCookie e = true ↔
      e.Place = DecodeErrPlace.mk "message" "cookie" := by
  simp [DecodeErr.IsInvalidCookie]

/-- Claim C7: for every `DecodeErrPlace` `p`, `p.String()` is
`p.Parent ++ "/" ++ p.Children`, and for every `DecodeErr` `e`, `e.Error()` is
`"BadFormat for " ++ e.Place.Parent ++ "/" ++ e.Place.Children ++ ": " ++ e.Message`. -/
theorem place_and_decodeErr_rendering :
    (∀ p : DecodeErrPlace, DecodeErrPlace.toText p = p.Parent ++ "/" ++ p.Children) ∧
    (∀ e : DecodeErr, DecodeErr.toText e =
      "BadFormat for " ++ e.Place.Parent ++ "/" ++ e.Place.Children ++ ": " ++ e.Message) :=
  ⟨fun _ => rfl, fun _ => rfl⟩

/-- Claim C10: for every `DecodeErr` `e` and `DecodeErrPlace` `p`, `e.IsPlace(p)`
holds exactly when both `e.IsPlaceParent(p.Parent)` and
`e.IsPlaceChildren(p.Children)` hold: the full-place predicate is the
conjunction of the two single-axis predicates. -/
theorem isPlace_eq_parent_and_children (e : DecodeErr) (p : DecodeErrPlace) :
    DecodeErr.IsPlace e p =
      (DecodeErr.IsPlaceParent e p.Parent && DecodeErr.IsPlaceChildren e p.Children) := by
  rcases e with ⟨⟨ep, ec⟩, msg⟩
  rcases p with ⟨pp, pc⟩
  simp [DecodeErr.IsPlace, DecodeErr.IsPlaceParent, DecodeErr.IsPlaceChildren,
    DecodeErrPlace.mk.injEq]

/-- Shared helper: `Attributes.get` reports `false` exactly when no element of
the list has the requested type. -/
theorem attributes_get_false_iff (l : Attributes) (t : AttrType) :
    (Attributes.get l t).2 = false ↔ ∀ y ∈ l, y.type ≠ t := by
  induction l with
  | nil => simp [Attributes.get]
  | cons c rest ih =>
    by_cases hc : c.type = t
    · simp only [Attributes.get, if_pos hc]
      constructor
      · intro h
        exact absurd h (by simp)
      · intro h
        exact absurd hc (h c (List.mem_cons_self c rest))
    · simp only [Attributes.get, if_neg hc]
      rw [ih]
      constructor
      · intro h y hy
        rcases List.mem_cons.mp hy with h1 | h2
        · subst h1
          exact hc
        · exact h y h2
      · intro h y hy
        exact h y (List.mem_cons_of_mem c hy)

/-- Claim C2: for every pair of raw attributes `a`, `b`, `a.Equal(b)` is false
when the types differ, false when the declared lengths differ (even for
identical values), false when the value byte sequences differ, and true
otherwise. -/
theorem rawAttribute_equal_spec (a b : RawAttribute) :
    (a.type ≠ b.type → RawAttribute.Equal a b = false) ∧
    (a.length ≠ b.length → RawAttribute.Equal a b = false) ∧
    (a.value ≠ b.value → RawAttribute.Equal a b = false) ∧
    (a.type = b.type → a.length = b.length → a.value = b.value →
      RawAttribute.Equal a b = true) := by
  have h := rawAttribute_equal_iff a b
  refine ⟨?_, ?_, ?_, ?_⟩
  · intro ht
    cases hE : RawAttribute.Equal a b
    · rfl
    · exact absurd (h.mp hE).1 ht
  · intro hl
    cases hE : RawAttribute.Equal a b
    · rfl
    · exact absurd (h.mp hE).2.1 hl
  · intro hv
    cases hE : RawAttribute.Equal a b
    · rfl
    · exact absurd (h.mp hE).2.2 hv
  · intro ht hl hv
    exact h.mpr ⟨ht, hl, hv⟩

/-- Witness for claim C2 at concrete attributes: differing types, differing
declared lengths over identical value bytes, differing value bytes, and full
agreement. -/
theorem rawAttribute_equal_spec_witness :
    RawAttribute.Equal (RawAttribute.mk 1 3 [9]) (RawAttribute.mk 2 3 [9]) = false ∧
    RawAttribute.Equal (RawAttribute.mk 1 3 [9, 9]) (RawAttribute.mk 1 2 [9, 9]) = false ∧
    RawAttribute.Equal (RawAttribute.mk 1 1 [9]) (RawAttribute.mk 1 1 [8]) = false ∧
    RawAttribute.Equal (RawAttribute.mk 1 1 [9]) (RawAttribute.mk 1 1 [9]) = true :=
  ⟨(rawAttribute_equal_spec (RawAttribute.mk 1 3 [9]) (RawAttribute.mk 2 3 [9])).1
      (by decide),
   (rawAttribute_equal_spec (RawAttribute.mk 1 3 [9, 9]) (RawAttribute.mk 1 2 [9, 9])).2.1
      (by decide),
   (rawAttribute_equal_spec (RawAttribute.mk 1 1 [9]) (RawAttribute.mk 1 1 [8])).2.2.1
      (by decide),
   (rawAttribute_equal_spec (RawAttribute.mk 1 1 [9]) (RawAttribute.mk 1 1 [9])).2.2.2
      rfl rfl rfl⟩

/-- Claim C8: `RawAttribute.Equal` is reflexive and symmetric. -/
theorem rawAttribute_equal_refl_symm (a b : RawAttribute) :
    RawAttribute.Equal a a = true ∧
    RawAttribute.Equal a b = RawAttribute.Equal b a := by
  constructor
  · exact (rawAttribute_equal_iff a a).mpr ⟨rfl, rfl, rfl⟩
  · cases hab : RawAttribute.Equal a b <;> cases hba : RawAttribute.Equal b a
    · rfl
    · rcases (rawAttribute_equal_iff b a).mp hba with ⟨h1, h2, h3⟩
      have hab2 := (rawAttribute_equal_iff a b).mpr ⟨h1.symm, h2.symm, h3.symm⟩
      rw [hab] at hab2
      exact absurd hab2 (by simp)
    · rcases (rawAttribute_equal_iff a b).mp hab with ⟨h1, h2, h3⟩
      have hba2 := (rawAttribute_equal_iff b a).mpr ⟨h1.symm, h2.symm, h3.symm⟩
      rw [hba] at hba2
      exact absurd hba2 (by simp)
    · rfl

/-- Claim C3: scanning is in insertion order, the first attribute whose type
matches is returned together with `true`, and with no match the zero-valued
attribute is returned with `false`. -/
theorem attributes_get_spec :
    (∀ (front back : Attributes) (x : RawAttribute) (t : AttrType),
      (∀ y ∈ front, y.type ≠ t) → x.type = t →
      Attributes.get (front ++ x :: back) t = (x, true)) ∧
    (∀ (l : Attributes) (t : AttrType), (∀ y ∈ l, y.type ≠ t) →
      Attributes.get l t = (RawAttribute.mk 0 0 [], false)) := by
  constructor
  · intro front back x t hfront hx
    induction front with
    | nil => simp [Attributes.get, hx]
    | cons c rest ih =>
      have hc : c.type ≠ t := hfront c (List.mem_cons_self c rest)
      have hrest : ∀ y ∈ rest, y.type ≠ t :=
        fun y hy => hfront y (List.mem_cons_of_mem c hy)
      simp [Attributes.get, hc, ih hrest]
  · intro l t hl
    induction l with
    | nil => rfl
    | cons c rest ih =>
      have hc : c.type ≠ t := hl c (List.mem_cons_self c rest)
      have hrest : ∀ y ∈ rest, y.type ≠ t :=
        fun y hy => hl y (List.mem_cons_of_mem c hy)
      simp [Attributes.get, hc, ih hrest]

/-- Witness for claim C3: among two same-typed attributes the earlier one is
returned, and a list without the type yields the zero attribute and `false`. -/
theorem attributes_get_spec_witness :
    Attributes.get
        [RawAttribute.mk 1 0 [], RawAttribute.mk 6 1 [1], RawAttribute.mk 6 1 [2]] 6 =
      (RawAttribute.mk 6 1 [1], true) ∧
    Attributes.get [RawAttribute.mk 1 0 []] 6 = (RawAttribute.mk 0 0 [], false) :=
  ⟨attributes_get_spec.1 [RawAttribute.mk 1 0 []] [RawAttribute.mk 6 1 [2]]
      (RawAttribute.mk 6 1 [1]) 6 (by decide) rfl,
   attributes_get_spec.2 [RawAttribute.mk 1 0 []] 6 (by decide)⟩

/-- Claim C4: the sentinel `ErrAttributeNotFound` comes back exactly when the
message's attribute list has no attribute of the requested type; when one is
present, the found attribute's value bytes come back with no error. -/
theorem message_get_spec (m : Message) (t : AttrType) :
    (Message.Get m t = Except.error ErrAttributeNotFound ↔
      ∀ a ∈ m.Attributes, a.type ≠ t) ∧
    ((∃ a ∈ m.Attributes, a.type = t) →
      Message.Get m t = Except.ok (Attributes.get m.Attributes t).1.value) := by
  rcases hG : Attributes.get m.Attributes t with ⟨v, b⟩
  cases b
  · have habs : ∀ a ∈ m.Attributes, a.type ≠ t :=
      (attributes_get_false_iff m.Attributes t).mp (by rw [hG])
    refine ⟨⟨fun _ => habs, fun _ => by simp [Message.Get, hG]⟩, ?_⟩
    rintro ⟨a, ha, hat⟩
    exact absurd hat (habs a ha)
  · have hne : ¬ ∀ a ∈ m.Attributes, a.type ≠ t := by
      rw [← attributes_get_false_iff]
      simp [hG]
    refine ⟨⟨fun h => ?_, fun h => absurd h hne⟩, fun _ => ?_⟩
    · simp [Message.Get, hG, ErrAttributeNotFound] at h
    · simp [Message.Get, hG]

/-- Witness for claim C4: a message holding a USERNAME attribute with the
bytes of "bob" yields those bytes, and a message with an empty list yields
the sentinel. -/
theorem message_get_spec_witness :
    Message.Get (Message.mk [] [RawAttribute.mk 6 3 [98, 111, 98]]) 6 =
      Except.ok [98, 111, 98] ∧
    Message.Get (Message.mk [] []) 6 = Except.error ErrAttributeNotFound :=
  ⟨(message_get_spec (Message.mk [] [RawAttribute.mk 6 3 [98, 111, 98]]) 6).2
      (by decide),
   (message_get_spec (Message.mk [] []) 6).1.mpr (by decide)⟩

/-- Claim C5: the textual form of an attribute type is total: registered
codes render as their canonical names (`0x8022` as `"SOFTWARE"`), and
unregistered codes render as `"0x"` followed by the lowercase, unpadded
hexadecimal digits of the code (`0x1234` as `"0x1234"`). -/
theorem attrType_toText_spec :
    AttrType.toText AttrSoftware = "SOFTWARE" ∧
    AttrType.toText 0x1234 = "0x1234" ∧
    ∀ t : AttrType,
      (∀ s, attrNames.lookup t = some s → AttrType.toText t = s) ∧
      (attrNames.lookup t = none →
        AttrType.toText t = "0x" ++ String.mk (Nat.toDigits 16 t)) := by
  refine ⟨by decide, by decide, fun t => ⟨?_, ?_⟩⟩
  · intro s hs
    unfold AttrType.toText
    rw [hs]
  · intro hn
    unfold AttrType.toText
    rw [hn]

/-- Witness for claim C5 at a registered and an unregistered code. -/
theorem attrType_toText_spec_witness :
    AttrType.toText 1 = "MAPPED-ADDRESS" ∧ AttrType.toText 2 = "0x2" :=
  ⟨(attrType_toText_spec.2.2 1).1 "MAPPED-ADDRESS" (by decide),
   (attrType_toText_spec.2.2 2).2 (by decide)⟩

/-- Claim C1, code evaluation at the failing input: `AddTo` passes the
message's own `Raw` buffer `[1, 2]` to `Add`, so the attribute appended to the
message carries the bytes `[1, 2]` and not the attribute's own value
`[98, 111, 98]`. -/
theorem addTo_appends_message_raw :
    (RawAttribute.AddTo (RawAttribute.mk AttrUsername 3 [98, 111, 98])
        (Message.mk [1, 2] [])).1 =
      Message.mk [1, 2] [RawAttribute.mk AttrUsername 2 [1, 2]] := rfl

/-- Claim C9: `AddTo` always returns a nil error, for every attribute and
message. -/
theorem addTo_error_nil (a : RawAttribute) (m : Message) :
    (RawAttribute.AddTo a m).2 = none := rfl

end stun
